import Mathlib

/-!
Verification of the pipeline orchestration core of the RAG visualizer app.

The definitions below are a shallow embedding of the TypeScript source
(`src/unnamed/part_004`, lines 672-1472, and `src/services/geminiService.ts`).
JavaScript strings are modelled as `List Char`, numeric scores as `ℚ`,
`Math.random` and the Gemini network calls as an explicit `Oracle` record,
and a rejected promise as an `Except`-style error value threaded through the
drivers.  React `useState` semantics are modelled faithfully: during one
driver invocation, direct reads of a state variable see the snapshot taken
when the handler was invoked (`snap`), functional updates
(`set(prev => ...)`) read the current value (`cur`), and `useRef` cells
(`processingRef`, `sqlResultRef`) are always current.
-/

namespace RagApp

/-- Lifecycle state of a chunk (source: the `state` field of the chunk
objects created in `generateChunksLocally` and updated by the transitions). -/
inductive ChunkState where
  | pending
  | processed
  | retrieved
deriving DecidableEq

/-- A chunk as built by `generateChunksLocally` and consumed by
`performRetrieval` (source: `Chunk & \x7b metadata?; state \x7d` in the app). -/
structure Chunk where
  id : String
  text : List Char
  state : ChunkState
  metadata : String
  score : Option ℚ
deriving DecidableEq

/-- Document pipeline steps (source: `RagStep` enum in `src/types.ts`). -/
inductive RagStep where
  | IDLE
  | UPLOADING
  | CHUNKING
  | EMBEDDING
  | STORING
  | RETRIEVING
  | GENERATING
deriving DecidableEq

/-- Agentic pipeline steps (source: `AgentStep` enum). -/
inductive AgentStep where
  | IDLE
  | ANALYZING_TASK
  | PLANNING
  | TOOL_EXECUTION
  | REASONING
  | SYNTHESIZING
deriving DecidableEq

/-- SQL pipeline steps (source: `SqlStep` enum). -/
inductive SqlStep where
  | IDLE
  | PARSING
  | GENERATING_SQL
  | EXECUTING
  | ANSWERING
deriving DecidableEq

/-- A mock database row.  The driver never inspects rows; they are opaque
JSON payloads, modelled as strings. -/
abbrev MockRow : Type := String

/-- The stored SQL result (source: the `sqlResult` state value
`\x7b sql; explanation; results \x7d` in the app). -/
structure SqlResult where
  sql : String
  explanation : String
  results : List MockRow
deriving DecidableEq

/-- JS `String.prototype.trim` whitespace test (common whitespace set). -/
def jsIsWs (c : Char) : Bool :=
  c = ' ' || c = '\t' || c = '\n' || c = '\r' || c = '\x0b' || c = '\x0c'

/-- JS `String.prototype.trim`: strip whitespace from both ends. -/
def trimChars (l : List Char) : List Char :=
  ((l.dropWhile jsIsWs).reverse.dropWhile jsIsWs).reverse

/-- JS `String.prototype.toLowerCase` (ASCII part). -/
def lowerChars (l : List Char) : List Char := l.map Char.toLower

/-- A JS regex `\w` word character: `[A-Za-z0-9_]`. -/
def isWordChar (c : Char) : Bool := c.isAlphanum || c = '_'

/-- Maximal runs of word characters of a string: the non-empty pieces
produced by `q.split(/\W+/)` in `performRetrieval` (empty pieces are
irrelevant because they are removed by the length filter). -/
def collectTokens : List Char → List Char → List (List Char)
  | [], acc => if acc.isEmpty then [] else [acc.reverse]
  | c :: rest, acc =>
    if isWordChar c then collectTokens rest (c :: acc)
    else (if acc.isEmpty then [] else [acc.reverse]) ++ collectTokens rest []

/-- One chunk object as pushed by `generateChunksLocally`:
`\x7b id: n.toString(), text, state: pending, metadata: name • Segment n \x7d`. -/
def mkChunk (n : Nat) (name : String) (text : List Char) : Chunk :=
  { id := toString n
    text := text
    state := ChunkState.pending
    metadata := name ++ " • Segment " ++ toString n
    score := none }

/-- The `for` loop of `generateChunksLocally`, with window start `i` and
accumulator `acc`.  `fuel` bounds the number of iterations; since the stride
is at least 20, `content.length + 1` iterations always suffice, so the fuel
never runs out when the function is applied below. -/
def chunkLoop (content : List Char) (name : String) (chunkSize step : Nat) :
    Nat → Nat → List Chunk → List Chunk
  | 0, _, acc => acc
  | fuel + 1, i, acc =>
    if i < content.length then
      let text := trimChars ((content.drop i).take chunkSize)
      let acc' := if 5 < text.length then acc ++ [mkChunk (acc.length + 1) name text] else acc
      if 100 ≤ acc'.length then acc'
      else chunkLoop content name chunkSize step fuel (i + step) acc'
    else acc

/-- Source function `generateChunksLocally` (lines 751-771): chunkSize 250,
overlap 50, stride `max(20, chunkSize - overlap)`, emit a trimmed window
only if its length exceeds 5, stop after 100 chunks. -/
def generateChunksLocally (content : List Char) (name : String) : List Chunk :=
  chunkLoop content name 250 (max 20 (250 - 50)) (content.length + 1) 0 []

/-- Score used for sorting: `c.score || 0` in the comparator. -/
def scoreD (c : Chunk) : ℚ := c.score.getD 0

/-- Descending-score order used by the sort in `performRetrieval`
(`(a, b) => (b.score || 0) - (a.score || 0)`): `scoreGE a b` holds when
chunk `a` scores at least chunk `b`. -/
def scoreGE (a b : Chunk) : Prop := scoreD b ≤ scoreD a

instance : DecidableRel scoreGE := fun a b => inferInstanceAs (Decidable (scoreD b ≤ scoreD a))

instance : IsTotal Chunk scoreGE := ⟨fun a b => le_total (scoreD b) (scoreD a)⟩

instance : IsTrans Chunk scoreGE := ⟨fun _ _ _ h1 h2 => le_trans h2 h1⟩

/-- `hasPrefixChars hay pat`: the list `pat` is an initial segment of `hay`. -/
def hasPrefixChars : List Char → List Char → Bool
  | _, [] => true
  | [], _ :: _ => false
  | h :: hs, p :: ps => h = p && hasPrefixChars hs ps

/-- JS `String.prototype.includes`: `includesChars hay pat` is true when
`pat` occurs as a contiguous substring of `hay`. -/
def includesChars : List Char → List Char → Bool
  | [], pat => pat.isEmpty
  | h :: hs, pat => hasPrefixChars (h :: hs) pat || includesChars hs pat

/-- The word `rule`, used by the domain-bias bonus. -/
def ruleChars : List Char := ['r', 'u', 'l', 'e']

/-- Deterministic score of one chunk against the lowercased query `q` and
keyword list `kws`: `+1.0` per contained keyword, `+0.5` when both the query
and the chunk text contain `rule`. -/
def chunkScore (q : List Char) (kws : List (List Char)) (c : Chunk) : ℚ :=
  let text := lowerChars c.text
  let base := kws.foldl (fun s kw => if includesChars text kw then s + 1 else s) (0 : ℚ)
  if includesChars q ruleChars && includesChars text ruleChars then base + 1/2 else base

/-- The `\x7b sql, explanation \x7d` pair returned by the Gemini
`textToSql` service call. -/
structure SqlPair where
  sql : String
  explanation : String
deriving DecidableEq

/-- External effects of the app: the per-chunk random jitter of
`performRetrieval` and the three Gemini service calls made by the
transitions.  A network failure of a call is an `Except.error`. -/
structure Oracle where
  jitter : Nat → ℚ
  ask : List Char → List Chunk → Except String String
  textToSql : List Char → Except String SqlPair
  simulate : String → Except String (List MockRow)

/-- Source function `performRetrieval` (lines 773-786): lowercase the query, keep
tokens longer than 2, score each chunk (`+1.0` per contained keyword,
`+0.5` rule bonus, plus `Math.random() * 0.1` jitter), sort descending by
score and take the first 5.  The `i`-th random draw is `o.jitter i`. -/
def performRetrieval (o : Oracle) (currentQuery : List Char) (currentChunks : List Chunk) :
    List Chunk :=
  let q := lowerChars currentQuery
  let keywords := (collectTokens q []).filter (fun k => 2 < k.length)
  let scored := currentChunks.enum.map
    (fun p => { p.2 with score := some (chunkScore q keywords p.2 + o.jitter p.1 * (1/10)) })
  let sorted := List.insertionSort scoreGE scored
  sorted.take 5

/-- The built-in sample document `SAMPLE_DOC` (source lines 718-725). -/
def SAMPLE_DOC : List Char :=
  ("The Future of AI Architecture Guidelines.\n" ++
   "Rule 1: All documents must be split into chunks of 512 tokens or less to ensure context window compliance.\n" ++
   "Rule 2: Semantic embeddings must be generated using high-dimensionality vector models (768+ dims).\n" ++
   "Rule 3: Vector databases like Pinecone or Chroma should be used for indexing and fast metadata-filtered retrieval.\n" ++
   "Rule 4: Grounding is mandatory. Every AI response must cite the specific source chunk to prevent hallucinations.\n" ++
   "Rule 5: Hybrid search is recommended. Use a combination of BM25 and Vector search for the best results.\n" ++
   "Rule 6: Privacy first. Ensure all sensitive data is redacted before chunking into the shared vector store.\n" ++
   "Rule 7: Real-time updates. The vector index should be refreshed every 24 hours to include the latest corporate reports.").toList

/-- The whole component state: React `useState` values plus the two
`useRef` cells (`processingRef`, `sqlResultRef`). -/
structure AppState where
  ragStep : RagStep
  agentStep : AgentStep
  sqlStep : SqlStep
  isAutoMode : Bool
  isProcessing : Bool
  fileContent : List Char
  fileName : String
  chunks : List Chunk
  retrievedChunks : List Chunk
  query : List Char
  answer : String
  thoughts : List String
  sqlResult : Option SqlResult
  sqlResultRef : Option SqlResult
  processingRef : Bool
deriving DecidableEq

/-- Expression `query.trim() || "Summarize the key points."` as computed by
the RETRIEVING and GENERATING transitions of the document pipeline. -/
def ragActiveQuery (q : List Char) : List Char :=
  if trimChars q = [] then "Summarize the key points.".toList else trimChars q

/-- Expression `query.trim() || "Analyze Rule 2."` of the agent transitions. -/
def agentActiveQuery (q : List Char) : List Char :=
  if trimChars q = [] then "Analyze Rule 2.".toList else trimChars q

/-- Expression `query.trim() || "Show me revenue by region for 2024."` of
the SQL GENERATING_SQL transition. -/
def sqlActiveQuery (q : List Char) : List Char :=
  if trimChars q = [] then "Show me revenue by region for 2024.".toList else trimChars q

/-- Expression `fileContent || SAMPLE_DOC`. -/
def activeContent (s : AppState) : List Char :=
  if s.fileContent = [] then SAMPLE_DOC else s.fileContent

/-- Source function `transitionTo` of the document pipeline (lines 952-998).
`snap` is the state captured by the handler closure when the driver was
invoked; `cur` is the live state.  The returned error is a rejected
promise propagating out of the `try` block (only the Gemini call can
reject); the `finally` clause clearing `isProcessing` is applied on both
paths. -/
def transitionTo (o : Oracle) (snap : AppState) (target : RagStep) (cur : AppState) :
    AppState × Option String :=
  let cur := { cur with isProcessing := true }
  match target with
  | RagStep.IDLE => ({ cur with isProcessing := false }, none)
  | RagStep.UPLOADING =>
    ({ cur with ragStep := RagStep.UPLOADING, isProcessing := false }, none)
  | RagStep.CHUNKING =>
    ({ cur with
        ragStep := RagStep.CHUNKING
        chunks := generateChunksLocally (activeContent snap)
          (if snap.fileName = "" then "Visualizer_Demo.pdf" else snap.fileName)
        isProcessing := false }, none)
  | RagStep.EMBEDDING =>
    ({ cur with
        ragStep := RagStep.EMBEDDING
        chunks := cur.chunks.map (fun c => { c with state := ChunkState.processed })
        isProcessing := false }, none)
  | RagStep.STORING =>
    ({ cur with ragStep := RagStep.STORING, isProcessing := false }, none)
  | RagStep.RETRIEVING =>
    let localRetrieved := performRetrieval o (ragActiveQuery snap.query) snap.chunks
    ({ cur with
        ragStep := RagStep.RETRIEVING
        retrievedChunks := localRetrieved
        chunks := cur.chunks.map (fun c =>
          { c with state :=
              if localRetrieved.any (fun t => t.id == c.id) then ChunkState.retrieved
              else ChunkState.processed })
        isProcessing := false }, none)
  | RagStep.GENERATING =>
    let cur := { cur with ragStep := RagStep.GENERATING, answer := "" }
    match o.ask (ragActiveQuery snap.query) snap.retrievedChunks with
    | Except.error e => ({ cur with isProcessing := false }, some e)
    | Except.ok r => ({ cur with answer := r, isProcessing := false }, none)

/-- The `switch` of `handleStep` resolving the next document step. -/
def ragNext : RagStep → RagStep
  | RagStep.IDLE => RagStep.UPLOADING
  | RagStep.UPLOADING => RagStep.CHUNKING
  | RagStep.CHUNKING => RagStep.EMBEDDING
  | RagStep.EMBEDDING => RagStep.STORING
  | RagStep.STORING => RagStep.RETRIEVING
  | RagStep.RETRIEVING => RagStep.GENERATING
  | RagStep.GENERATING => RagStep.IDLE

/-- The observable outcome of one driver invocation: the final state, the
error of a rejected transition if any, the ordered list of steps entered
by the run, and the sequence of live states at the driver suspension
points (loop entry and after each transition) — the points at which a
second invocation could be interleaved. -/
structure Run (Step : Type) where
  state : AppState
  err : Option String
  trace : List Step
  history : List AppState
deriving DecidableEq

/-- The `while (keepGoing)` loop of `handleStep`.  One fuel unit is spent
per iteration; the loop provably stops within 6 iterations (the step chain
is strictly ordered towards GENERATING), so the fuel passed by `handleStep`
never runs out. -/
def ragLoop (o : Oracle) (snap : AppState) (auto : Bool) :
    Nat → RagStep → AppState → Run RagStep
  | 0, _, cur => ⟨cur, none, [], []⟩
  | fuel + 1, current, cur =>
    let next := ragNext current
    match transitionTo o snap next cur with
    | (cur', some e) => ⟨cur', some e, [next], [cur']⟩
    | (cur', none) =>
      if auto = false ∨ next = RagStep.GENERATING then ⟨cur', none, [next], [cur']⟩
      else
        let rest := ragLoop o snap auto fuel next cur'
        ⟨rest.state, rest.err, next :: rest.trace, cur' :: rest.history⟩

/-- Source function `handleStep` (lines 1000-1033): the document pipeline driver.
Single-flight guard on `processingRef`, auto-mode flag set before work,
reset from GENERATING to IDLE before a fresh run, the stepping loop, and
the `finally` clause clearing `processingRef`, `isAutoMode` and
`isProcessing` whether or not a transition rejected. -/
def handleStep (o : Oracle) (auto : Bool) (s : AppState) : Run RagStep :=
  if s.processingRef then ⟨s, none, [], []⟩
  else
    let cur0 := { s with processingRef := true, isAutoMode := auto }
    let start := if s.ragStep = RagStep.GENERATING then RagStep.IDLE else s.ragStep
    let cur1 := if s.ragStep = RagStep.GENERATING then { cur0 with ragStep := RagStep.IDLE } else cur0
    let r := ragLoop o s auto 7 start cur1
    ⟨{ r.state with processingRef := false, isAutoMode := false, isProcessing := false },
      r.err, r.trace, cur1 :: r.history⟩

/-- The two thoughts set (wholesale) by the ANALYZING_TASK transition. -/
def analyzingThoughts : List String :=
  ["Analyzing user intent...", "Detected question requiring specific document validation."]

/-- Source function `transitionAgentTo` (lines 867-912).  The TOOL_EXECUTION stage
reads `chunks` from the invocation snapshot (a stale closure read in the
source) while its functional `setChunks` update reads the live value. -/
def transitionAgentTo (o : Oracle) (snap : AppState) (target : AgentStep) (cur : AppState) :
    AppState × Option String :=
  let cur := { cur with isProcessing := true }
  match target with
  | AgentStep.IDLE => ({ cur with isProcessing := false }, none)
  | AgentStep.ANALYZING_TASK =>
    ({ cur with
        agentStep := AgentStep.ANALYZING_TASK
        thoughts := analyzingThoughts
        isProcessing := false }, none)
  | AgentStep.PLANNING =>
    ({ cur with
        agentStep := AgentStep.PLANNING
        thoughts := cur.thoughts ++
          ["Plan: Invoke \x27doc_search\x27 tool to verify guidelines.",
           "Defining search parameters..."]
        isProcessing := false }, none)
  | AgentStep.TOOL_EXECUTION =>
    let cur := { cur with
      agentStep := AgentStep.TOOL_EXECUTION
      thoughts := cur.thoughts ++ ["Executing Tool: doc_search(query=\x27Rule requirements\x27)"] }
    let cur := { cur with
      chunks :=
        if snap.chunks = [] then
          generateChunksLocally (activeContent snap)
            (if snap.fileName = "" then "System_Auto.pdf" else snap.fileName)
        else cur.chunks }
    let localRetrieved := performRetrieval o (agentActiveQuery snap.query)
      (if snap.chunks ≠ [] then snap.chunks else generateChunksLocally SAMPLE_DOC "Auto.pdf")
    let cur := { cur with retrievedChunks := localRetrieved }
    let base := if cur.chunks ≠ [] then cur.chunks else generateChunksLocally SAMPLE_DOC "Auto.pdf"
    ({ cur with
        chunks := base.map (fun c =>
          { c with state :=
              if localRetrieved.any (fun t => t.id == c.id) then ChunkState.retrieved
              else ChunkState.processed })
        isProcessing := false }, none)
  | AgentStep.REASONING =>
    ({ cur with
        agentStep := AgentStep.REASONING
        thoughts := cur.thoughts ++
          ["Comparing retrieved context with user constraints...",
           "Context found. Verifying grounding logic."]
        isProcessing := false }, none)
  | AgentStep.SYNTHESIZING =>
    let cur := { cur with
      agentStep := AgentStep.SYNTHESIZING
      thoughts := cur.thoughts ++ ["Finalizing answer with citations."] }
    match o.ask (agentActiveQuery snap.query) snap.retrievedChunks with
    | Except.error e => ({ cur with isProcessing := false }, some e)
    | Except.ok r => ({ cur with answer := r, isProcessing := false }, none)

/-- The `switch` of `handleAgentStep` resolving the next agent step. -/
def agentNext : AgentStep → AgentStep
  | AgentStep.IDLE => AgentStep.ANALYZING_TASK
  | AgentStep.ANALYZING_TASK => AgentStep.PLANNING
  | AgentStep.PLANNING => AgentStep.TOOL_EXECUTION
  | AgentStep.TOOL_EXECUTION => AgentStep.REASONING
  | AgentStep.REASONING => AgentStep.SYNTHESIZING
  | AgentStep.SYNTHESIZING => AgentStep.IDLE

/-- The `while (keepGoing)` loop of `handleAgentStep`. -/
def agentLoop (o : Oracle) (snap : AppState) (auto : Bool) :
    Nat → AgentStep → AppState → Run AgentStep
  | 0, _, cur => ⟨cur, none, [], []⟩
  | fuel + 1, current, cur =>
    let next := agentNext current
    match transitionAgentTo o snap next cur with
    | (cur', some e) => ⟨cur', some e, [next], [cur']⟩
    | (cur', none) =>
      if auto = false ∨ next = AgentStep.SYNTHESIZING then ⟨cur', none, [next], [cur']⟩
      else
        let rest := agentLoop o snap auto fuel next cur'
        ⟨rest.state, rest.err, next :: rest.trace, cur' :: rest.history⟩

/-- Source function `handleAgentStep` (lines 914-947): the agent pipeline driver.
A fresh trigger from SYNTHESIZING resets the step to IDLE and clears both
the thought trace and the answer before the loop starts. -/
def handleAgentStep (o : Oracle) (auto : Bool) (s : AppState) : Run AgentStep :=
  if s.processingRef then ⟨s, none, [], []⟩
  else
    let cur0 := { s with processingRef := true, isAutoMode := auto }
    let start := if s.agentStep = AgentStep.SYNTHESIZING then AgentStep.IDLE else s.agentStep
    let cur1 :=
      if s.agentStep = AgentStep.SYNTHESIZING then
        { cur0 with agentStep := AgentStep.IDLE, thoughts := [], answer := "" }
      else cur0
    let r := agentLoop o s auto 6 start cur1
    ⟨{ r.state with processingRef := false, isAutoMode := false, isProcessing := false },
      r.err, r.trace, cur1 :: r.history⟩

/-- Source function `transitionSqlTo` (lines 793-828).  The EXECUTING stage reads
the SQL through the `sqlResultRef` ref cell (always current), not the
`sqlResult` state value. -/
def transitionSqlTo (o : Oracle) (snap : AppState) (target : SqlStep) (cur : AppState) :
    AppState × Option String :=
  let cur := { cur with isProcessing := true }
  match target with
  | SqlStep.IDLE => ({ cur with isProcessing := false }, none)
  | SqlStep.PARSING =>
    ({ cur with
        sqlStep := SqlStep.PARSING
        sqlResult := none
        sqlResultRef := none
        isProcessing := false }, none)
  | SqlStep.GENERATING_SQL =>
    let cur := { cur with sqlStep := SqlStep.GENERATING_SQL }
    match o.textToSql (sqlActiveQuery snap.query) with
    | Except.error e => ({ cur with isProcessing := false }, some e)
    | Except.ok p =>
      let newResult : SqlResult := ⟨p.sql, p.explanation, []⟩
      ({ cur with
          sqlResultRef := some newResult
          sqlResult := some newResult
          isProcessing := false }, none)
  | SqlStep.EXECUTING =>
    let cur := { cur with sqlStep := SqlStep.EXECUTING }
    match cur.sqlResultRef with
    | none => ({ cur with isProcessing := false }, none)
    | some r =>
      match o.simulate r.sql with
      | Except.error e => ({ cur with isProcessing := false }, some e)
      | Except.ok results =>
        let updatedResult := { r with results := results }
        ({ cur with
            sqlResultRef := some updatedResult
            sqlResult := some updatedResult
            isProcessing := false }, none)
  | SqlStep.ANSWERING =>
    ({ cur with sqlStep := SqlStep.ANSWERING, isProcessing := false }, none)

/-- The `switch` of `handleSqlStep` resolving the next SQL step. -/
def sqlNext : SqlStep → SqlStep
  | SqlStep.IDLE => SqlStep.PARSING
  | SqlStep.PARSING => SqlStep.GENERATING_SQL
  | SqlStep.GENERATING_SQL => SqlStep.EXECUTING
  | SqlStep.EXECUTING => SqlStep.ANSWERING
  | SqlStep.ANSWERING => SqlStep.IDLE

/-- The `while (keepGoing)` loop of `handleSqlStep`. -/
def sqlLoop (o : Oracle) (snap : AppState) (auto : Bool) :
    Nat → SqlStep → AppState → Run SqlStep
  | 0, _, cur => ⟨cur, none, [], []⟩
  | fuel + 1, current, cur =>
    let next := sqlNext current
    match transitionSqlTo o snap next cur with
    | (cur', some e) => ⟨cur', some e, [next], [cur']⟩
    | (cur', none) =>
      if auto = false ∨ next = SqlStep.ANSWERING then ⟨cur', none, [next], [cur']⟩
      else
        let rest := sqlLoop o snap auto fuel next cur'
        ⟨rest.state, rest.err, next :: rest.trace, cur' :: rest.history⟩

/-- Source function `handleSqlStep` (lines 830-862): the SQL pipeline driver.
A fresh trigger from ANSWERING resets to IDLE and clears the stored result
and the ref cell before the loop starts. -/
def handleSqlStep (o : Oracle) (auto : Bool) (s : AppState) : Run SqlStep :=
  if s.processingRef then ⟨s, none, [], []⟩
  else
    let cur0 := { s with processingRef := true, isAutoMode := auto }
    let start := if s.sqlStep = SqlStep.ANSWERING then SqlStep.IDLE else s.sqlStep
    let cur1 :=
      if s.sqlStep = SqlStep.ANSWERING then
        { cur0 with sqlStep := SqlStep.IDLE, sqlResult := none, sqlResultRef := none }
      else cur0
    let r := sqlLoop o s auto 5 start cur1
    ⟨{ r.state with processingRef := false, isAutoMode := false, isProcessing := false },
      r.err, r.trace, cur1 :: r.history⟩

end RagApp

namespace GeminiService

/-- Expression `response.text || defaultText`: the text handed to `JSON.parse`, with
the service's fallback literal when the response text is absent or empty. -/
def responseTextOr (defaultText : String) : Option String → String
  | none => defaultText
  | some s => if s = "" then defaultText else s

/-- Post-response logic of `GeminiService.textToSql`
(`src/services/geminiService.ts`, lines 64-68): `JSON.parse` the response
text (default `\x7b\x7d`), and on a parse failure return the placeholder
query with a failure explanation instead of raising.  `parseObj` models
`JSON.parse` specialised to the expected object shape. -/
def textToSql (parseObj : String → Except String RagApp.SqlPair)
    (responseText : Option String) : RagApp.SqlPair :=
  match parseObj (responseTextOr "\x7b\x7d" responseText) with
  | Except.ok p => p
  | Except.error _ =>
    { sql := "SELECT * FROM table;", explanation := "Failed to parse SQL response." }

/-- Post-response logic of `GeminiService.simulateDatabaseQuery`
(`src/services/geminiService.ts`, lines 79-83): `JSON.parse` the response
text (default `[]`), and on a parse failure return the empty row list
instead of raising. -/
def simulateDatabaseQuery (parseArr : String → Except String (List RagApp.MockRow))
    (responseText : Option String) : List RagApp.MockRow :=
  match parseArr (responseTextOr "[]" responseText) with
  | Except.ok rows => rows
  | Except.error _ => []

end GeminiService

namespace RagApp

/-- Nat ceiling division, used to state window counts. -/
def ceilDiv (a b : Nat) : Nat := (a + b - 1) / b

/-- The chunk-count formula stated by the spec for the chunker:
ceil((L - C) / (C - O)) + 1, clipped by maxChunks.  Written from the spec
words in order to compare it with the behaviour of the source function
`generateChunksLocally`. -/
def specChunkCountFormula (L C O : Nat) : Nat := ceilDiv (L - C) (C - O) + 1

/-- A benign concrete oracle for witnesses: zero jitter, every service
call succeeds. -/
def oracleA : Oracle :=
  { jitter := fun _ => 0
    ask := fun _ _ => Except.ok "A grounded answer."
    textToSql := fun _ => Except.ok ⟨"SELECT 1;", "E"⟩
    simulate := fun _ => Except.ok ["r1"] }

/-- A concrete oracle whose Gemini calls all reject, for exercising the
failure path of the drivers. -/
def oracleFail : Oracle :=
  { jitter := fun _ => 0
    ask := fun _ _ => Except.error "network failure"
    textToSql := fun _ => Except.error "network failure"
    simulate := fun _ => Except.error "network failure" }

/-- A concrete quiescent state: all pipelines at IDLE, not busy, a small
document and a non-empty query. -/
def stateIdle : AppState :=
  { ragStep := RagStep.IDLE
    agentStep := AgentStep.IDLE
    sqlStep := SqlStep.IDLE
    isAutoMode := false
    isProcessing := false
    fileContent := "abcdefgh".toList
    fileName := "f.txt"
    chunks := []
    retrievedChunks := []
    query := "rule".toList
    answer := ""
    thoughts := []
    sqlResult := none
    sqlResultRef := none
    processingRef := false }

/-- The quiescent state with the busy flag set (an invocation in flight). -/
def stateBusy : AppState := { stateIdle with processingRef := true }

/-- The quiescent state with an empty query. -/
def stateEmptyQ : AppState := { stateIdle with query := [] }

/-- A state resting at the agent terminal step with an accumulated thought
trace and answer. -/
def stateSynth : AppState :=
  { stateIdle with agentStep := AgentStep.SYNTHESIZING, thoughts := ["t1"], answer := "old" }

/-- A concrete pending chunk. -/
def chunkA : Chunk := ⟨"1", ['x'], ChunkState.pending, "m", none⟩

/-- The quiescent state holding one chunk. -/
def stateC : AppState := { stateIdle with chunks := [chunkA] }

/-- The chunk `chunkA` as marked by a retrieval that selected it. -/
def chunkARetrieved : Chunk := ⟨"1", ['x'], ChunkState.retrieved, "m", none⟩

/-- Concrete whitespace-free content of length 410. -/
def contentEx : List Char := List.replicate 410 'a'

/-- A parse oracle that always fails, modelling an unparsable response. -/
def badParseObj : String → Except String SqlPair := fun _ => Except.error "unparsable"

/-- A parse oracle for row arrays that always fails. -/
def badParseArr : String → Except String (List MockRow) := fun _ => Except.error "unparsable"

/-- No document stage transition touches the `processingRef` ref cell. -/
theorem transitionTo_processingRef (o : Oracle) (snap : AppState) (t : RagStep) (cur : AppState) :
    ((transitionTo o snap t cur).1).processingRef = cur.processingRef := by
  cases t <;> simp only [transitionTo]
  case GENERATING =>
    rcases h : o.ask (ragActiveQuery snap.query) snap.retrievedChunks with e | r
    · simp [h]
    · simp [h]

/-- No agent stage transition touches the `processingRef` ref cell. -/
theorem transitionAgentTo_processingRef (o : Oracle) (snap : AppState) (t : AgentStep)
    (cur : AppState) :
    ((transitionAgentTo o snap t cur).1).processingRef = cur.processingRef := by
  cases t <;> simp only [transitionAgentTo]
  case SYNTHESIZING =>
    rcases h : o.ask (agentActiveQuery snap.query) snap.retrievedChunks with e | r
    · simp [h]
    · simp [h]

/-- No SQL stage transition touches the `processingRef` ref cell. -/
theorem transitionSqlTo_processingRef (o : Oracle) (snap : AppState) (t : SqlStep)
    (cur : AppState) :
    ((transitionSqlTo o snap t cur).1).processingRef = cur.processingRef := by
  cases t <;> simp only [transitionSqlTo]
  case GENERATING_SQL =>
    rcases h : o.textToSql (sqlActiveQuery snap.query) with e | p
    · simp [h]
    · simp [h]
  case EXECUTING =>
    cases hr : cur.sqlResultRef with
    | none => simp [hr]
    | some r =>
      rcases h : o.simulate r.sql with e | rows
      · simp [hr, h]
      · simp [hr, h]

/-- Every state recorded by the document loop keeps `processingRef` as it
was when the loop started. -/
theorem ragLoop_history_processingRef (o : Oracle) (snap : AppState) (auto : Bool) :
    ∀ (fuel : Nat) (current : RagStep) (cur : AppState), cur.processingRef = true →
      ∀ σ ∈ (ragLoop o snap auto fuel current cur).history, σ.processingRef = true := by
  intro fuel
  induction fuel with
  | zero => intro current cur _ σ hσ; simp [ragLoop] at hσ
  | succ n ih =>
    intro current cur hc σ hσ
    have hpres := transitionTo_processingRef o snap (ragNext current) cur
    rcases hT : transitionTo o snap (ragNext current) cur with ⟨c', e⟩
    rw [hT] at hpres
    simp only [ragLoop, hT] at hσ
    cases e with
    | some e0 => simp at hσ; subst hσ; exact hpres.trans hc
    | none =>
      by_cases hstop : auto = false ∨ ragNext current = RagStep.GENERATING
      · simp [hstop] at hσ; subst hσ; exact hpres.trans hc
      · simp [hstop] at hσ
        rcases hσ with hσ | hσ
        · subst hσ; exact hpres.trans hc
        · exact ih (ragNext current) c' (hpres.trans hc) σ hσ

/-- Every state recorded by the agent loop keeps `processingRef` as it
was when the loop started. -/
theorem agentLoop_history_processingRef (o : Oracle) (snap : AppState) (auto : Bool) :
    ∀ (fuel : Nat) (current : AgentStep) (cur : AppState), cur.processingRef = true →
      ∀ σ ∈ (agentLoop o snap auto fuel current cur).history, σ.processingRef = true := by
  intro fuel
  induction fuel with
  | zero => intro current cur _ σ hσ; simp [agentLoop] at hσ
  | succ n ih =>
    intro current cur hc σ hσ
    have hpres := transitionAgentTo_processingRef o snap (agentNext current) cur
    rcases hT : transitionAgentTo o snap (agentNext current) cur with ⟨c', e⟩
    rw [hT] at hpres
    simp only [agentLoop, hT] at hσ
    cases e with
    | some e0 => simp at hσ; subst hσ; exact hpres.trans hc
    | none =>
      by_cases hstop : auto = false ∨ agentNext current = AgentStep.SYNTHESIZING
      · simp [hstop] at hσ; subst hσ; exact hpres.trans hc
      · simp [hstop] at hσ
        rcases hσ with hσ | hσ
        · subst hσ; exact hpres.trans hc
        · exact ih (agentNext current) c' (hpres.trans hc) σ hσ

/-- Every state recorded by the SQL loop keeps `processingRef` as it was
when the loop started. -/
theorem sqlLoop_history_processingRef (o : Oracle) (snap : AppState) (auto : Bool) :
    ∀ (fuel : Nat) (current : SqlStep) (cur : AppState), cur.processingRef = true →
      ∀ σ ∈ (sqlLoop o snap auto fuel current cur).history, σ.processingRef = true := by
  intro fuel
  induction fuel with
  | zero => intro current cur _ σ hσ; simp [sqlLoop] at hσ
  | succ n ih =>
    intro current cur hc σ hσ
    have hpres := transitionSqlTo_processingRef o snap (sqlNext current) cur
    rcases hT : transitionSqlTo o snap (sqlNext current) cur with ⟨c', e⟩
    rw [hT] at hpres
    simp only [sqlLoop, hT] at hσ
    cases e with
    | some e0 => simp at hσ; subst hσ; exact hpres.trans hc
    | none =>
      by_cases hstop : auto = false ∨ sqlNext current = SqlStep.ANSWERING
      · simp [hstop] at hσ; subst hσ; exact hpres.trans hc
      · simp [hstop] at hσ
        rcases hσ with hσ | hσ
        · subst hσ; exact hpres.trans hc
        · exact ih (sqlNext current) c' (hpres.trans hc) σ hσ

/-- A document driver invocation rejected by the guard is a pure no-op. -/
theorem handleStep_busy (o : Oracle) (auto : Bool) (s : AppState)
    (h : s.processingRef = true) : handleStep o auto s = ⟨s, none, [], []⟩ := by
  simp [handleStep, h]

/-- An agent driver invocation rejected by the guard is a pure no-op. -/
theorem handleAgentStep_busy (o : Oracle) (auto : Bool) (s : AppState)
    (h : s.processingRef = true) : handleAgentStep o auto s = ⟨s, none, [], []⟩ := by
  simp [handleAgentStep, h]

/-- An SQL driver invocation rejected by the guard is a pure no-op. -/
theorem handleSqlStep_busy (o : Oracle) (auto : Bool) (s : AppState)
    (h : s.processingRef = true) : handleSqlStep o auto s = ⟨s, none, [], []⟩ := by
  simp [handleSqlStep, h]

/-- Every suspension-point state of a document driver run is busy. -/
theorem handleStep_history_busy (o : Oracle) (auto : Bool) (s : AppState) :
    ∀ σ ∈ (handleStep o auto s).history, σ.processingRef = true := by
  intro σ hσ
  by_cases h : s.processingRef = true
  · rw [handleStep_busy o auto s h] at hσ; simp at hσ
  · simp only [handleStep, h, if_false] at hσ
    rcases List.mem_cons.mp hσ with rfl | hmem
    · split <;> rfl
    · refine ragLoop_history_processingRef o s auto 7 _ _ ?_ σ hmem
      split <;> rfl

/-- Every suspension-point state of an agent driver run is busy. -/
theorem handleAgentStep_history_busy (o : Oracle) (auto : Bool) (s : AppState) :
    ∀ σ ∈ (handleAgentStep o auto s).history, σ.processingRef = true := by
  intro σ hσ
  by_cases h : s.processingRef = true
  · rw [handleAgentStep_busy o auto s h] at hσ; simp at hσ
  · simp only [handleAgentStep, h, if_false] at hσ
    rcases List.mem_cons.mp hσ with rfl | hmem
    · split <;> rfl
    · refine agentLoop_history_processingRef o s auto 6 _ _ ?_ σ hmem
      split <;> rfl

/-- Every suspension-point state of an SQL driver run is busy. -/
theorem handleSqlStep_history_busy (o : Oracle) (auto : Bool) (s : AppState) :
    ∀ σ ∈ (handleSqlStep o auto s).history, σ.processingRef = true := by
  intro σ hσ
  by_cases h : s.processingRef = true
  · rw [handleSqlStep_busy o auto s h] at hσ; simp at hσ
  · simp only [handleSqlStep, h, if_false] at hσ
    rcases List.mem_cons.mp hσ with rfl | hmem
    · split <;> rfl
    · refine sqlLoop_history_processingRef o s auto 5 _ _ ?_ σ hmem
      split <;> rfl

end RagApp

namespace RagApp

/-- C1.  Single-flight guard: for every pipeline mode, an invocation of the
advance operation (`handleStep` / `handleAgentStep` / `handleSqlStep`) made
while `processingRef` is set returns immediately as a no-op — same state, no
error, no transition executed, no suspension point.  Moreover every
suspension-point state of a running invocation has `processingRef` set, so a
second back-to-back call, dispatched at any such point with any oracle and
flag, is exactly that no-op: the two calls execute exactly one transition
sequence (the trace of the first call). -/
theorem singleFlightGuard :
    (∀ (o : Oracle) (auto : Bool) (s : AppState), s.processingRef = true →
      handleStep o auto s = ⟨s, none, [], []⟩ ∧
      handleAgentStep o auto s = ⟨s, none, [], []⟩ ∧
      handleSqlStep o auto s = ⟨s, none, [], []⟩) ∧
    (∀ (o : Oracle) (auto : Bool) (s : AppState) (o2 : Oracle) (auto2 : Bool) (σ : AppState),
      (σ ∈ (handleStep o auto s).history ∨ σ ∈ (handleAgentStep o auto s).history ∨
        σ ∈ (handleSqlStep o auto s).history) →
      σ.processingRef = true ∧
      handleStep o2 auto2 σ = ⟨σ, none, [], []⟩ ∧
      handleAgentStep o2 auto2 σ = ⟨σ, none, [], []⟩ ∧
      handleSqlStep o2 auto2 σ = ⟨σ, none, [], []⟩) := by
  constructor
  · intro o auto s h
    exact ⟨handleStep_busy o auto s h, handleAgentStep_busy o auto s h,
      handleSqlStep_busy o auto s h⟩
  · intro o auto s o2 auto2 σ hσ
    have hbusy : σ.processingRef = true := by
      rcases hσ with hσ | hσ | hσ
      · exact handleStep_history_busy o auto s σ hσ
      · exact handleAgentStep_history_busy o auto s σ hσ
      · exact handleSqlStep_history_busy o auto s σ hσ
    exact ⟨hbusy, handleStep_busy o2 auto2 σ hbusy, handleAgentStep_busy o2 auto2 σ hbusy,
      handleSqlStep_busy o2 auto2 σ hbusy⟩

set_option maxRecDepth 10000 in
/-- Witness for C1 at concrete inputs: a busy state is returned untouched by
all three drivers, and the state at the first suspension point of a concrete
run is itself busy (hence guarded). -/
theorem singleFlightGuard_witness :
    handleStep oracleA true stateBusy = ⟨stateBusy, none, [], []⟩ ∧
    stateBusy.processingRef = true ∧
    handleAgentStep oracleA false stateBusy = ⟨stateBusy, none, [], []⟩ ∧
    handleSqlStep oracleA false stateBusy = ⟨stateBusy, none, [], []⟩ := by
  have h1 := (singleFlightGuard.1 oracleA true stateBusy (by decide)).1
  have h2 := singleFlightGuard.2 oracleA false stateIdle oracleA false stateBusy
    (Or.inl (by decide))
  exact ⟨h1, h2.1, h2.2.2.1, h2.2.2.2⟩

/-- C2.  Every guard-passing invocation of an advance operation ends with
the busy flag `processingRef` and the auto-mode flag cleared — the
`finally` finalizer runs on both the success path and the path where a
transition rejects (the oracle is arbitrary, so in particular it covers
every failing Gemini call), so the system is never left locked. -/
theorem finalizerClearsFlags (o : Oracle) (auto : Bool) (s : AppState)
    (h : s.processingRef = false) :
    ((handleStep o auto s).state.processingRef = false ∧
      (handleStep o auto s).state.isAutoMode = false) ∧
    ((handleAgentStep o auto s).state.processingRef = false ∧
      (handleAgentStep o auto s).state.isAutoMode = false) ∧
    ((handleSqlStep o auto s).state.processingRef = false ∧
      (handleSqlStep o auto s).state.isAutoMode = false) := by
  refine ⟨⟨?_, ?_⟩, ⟨?_, ?_⟩, ⟨?_, ?_⟩⟩ <;> simp [handleStep, handleAgentStep, handleSqlStep, h]

set_option maxRecDepth 10000 in
/-- Witness for C2 at a concrete input whose oracle rejects every Gemini
call: the flags are still cleared after each driver run. -/
theorem finalizerClearsFlags_witness :
    ((handleStep oracleFail true stateIdle).state.processingRef = false ∧
      (handleStep oracleFail true stateIdle).state.isAutoMode = false) ∧
    ((handleAgentStep oracleFail true stateIdle).state.processingRef = false ∧
      (handleAgentStep oracleFail true stateIdle).state.isAutoMode = false) ∧
    ((handleSqlStep oracleFail true stateIdle).state.processingRef = false ∧
      (handleSqlStep oracleFail true stateIdle).state.isAutoMode = false) :=
  finalizerClearsFlags oracleFail true stateIdle (by decide)

/-- C3.  For every query and every non-empty chunk sequence, the retrieval
operation returns exactly min(5, number of chunks) chunks (5 is the top-K
bound of the source), the result is never empty, and it is sorted descending
by score — for any jitter oracle and any query, including one matching no
keywords. -/
theorem retrievalTopK (o : Oracle) (q : List Char) (cs : List Chunk) (h : cs ≠ []) :
    (performRetrieval o q cs).length = min 5 cs.length ∧
    performRetrieval o q cs ≠ [] ∧
    List.Sorted scoreGE (performRetrieval o q cs) := by
  have hlen : (performRetrieval o q cs).length = min 5 cs.length := by
    simp [performRetrieval, List.length_take, List.length_insertionSort]
  refine ⟨hlen, ?_, ?_⟩
  · have hpos : 0 < cs.length := List.length_pos.mpr h
    have : 0 < (performRetrieval o q cs).length := by
      rw [hlen]; omega
    exact List.ne_nil_of_length_pos this
  · have hs := List.sorted_insertionSort scoreGE
      ((cs.enum.map (fun p =>
        ({ p.2 with score := some (chunkScore (lowerChars q)
          (((collectTokens (lowerChars q) []).filter (fun k => 2 < k.length))) p.2
            + o.jitter p.1 * (1/10)) } : Chunk))))
    exact List.Pairwise.sublist (List.take_sublist 5 _) hs

/-- Witness for C3 at a concrete input: a single chunk and a query matching
no keyword still yield one (sorted, non-empty) result. -/
theorem retrievalTopK_witness :
    (performRetrieval oracleA ['z'] [chunkA]).length = min 5 [chunkA].length ∧
    performRetrieval oracleA ['z'] [chunkA] ≠ [] ∧
    List.Sorted scoreGE (performRetrieval oracleA ['z'] [chunkA]) :=
  retrievalTopK oracleA ['z'] [chunkA] (by decide)

/-- C6.  After the RETRIEVING transition of the document pipeline, a chunk
of the chunk set has state `retrieved` exactly when its id occurs in the
stored retrieval result, and state `processed` exactly when it does not —
a non-selected chunk never ends up `retrieved`. -/
theorem retrievingMarksChunks (o : Oracle) (snap cur : AppState) :
    ∀ c ∈ ((transitionTo o snap RagStep.RETRIEVING cur).1).chunks,
      (c.state = ChunkState.retrieved ↔
        ∃ r ∈ ((transitionTo o snap RagStep.RETRIEVING cur).1).retrievedChunks, r.id = c.id) ∧
      (c.state = ChunkState.processed ↔
        ∀ r ∈ ((transitionTo o snap RagStep.RETRIEVING cur).1).retrievedChunks, r.id ≠ c.id) := by
  intro c hc
  simp only [transitionTo, List.mem_map] at hc
  obtain ⟨c₀, hc₀, rfl⟩ := hc
  simp only [transitionTo]
  by_cases hA : (performRetrieval o (ragActiveQuery snap.query) snap.chunks).any
      (fun t => t.id == c₀.id) = true
  · rcases List.any_eq_true.mp hA with ⟨r, hr, hrid⟩
    simp only [hA, if_true]
    constructor
    · simp only [true_iff, iff_true]
      exact ⟨r, hr, by simpa using hrid⟩
    · constructor
      · intro hfalse; cases hfalse
      · intro hall
        exact absurd (by simpa using hrid) (hall r hr)
  · have hA' := hA
    simp only [List.any_eq_true, not_exists] at hA'
    simp only [hA, if_false]
    constructor
    · constructor
      · intro hfalse; cases hfalse
      · rintro ⟨r, hr, hrid⟩
        exact absurd (⟨hr, beq_iff_eq.mpr (by simpa using hrid)⟩ :
          r ∈ performRetrieval o (ragActiveQuery snap.query) snap.chunks ∧
            (r.id == c₀.id) = true) (hA' r)
    · constructor
      · intro _ r hr hEq
        exact absurd (⟨hr, beq_iff_eq.mpr (by simpa using hEq)⟩ :
          r ∈ performRetrieval o (ragActiveQuery snap.query) snap.chunks ∧
            (r.id == c₀.id) = true) (hA' r)
      · intro _; rfl

set_option maxRecDepth 10000 in
/-- Witness for C6 at a concrete input: the single chunk of the set is
selected by the retrieval, so after RETRIEVING its state is `retrieved` and
the membership equivalences hold for it. -/
theorem retrievingMarksChunks_witness :
    (chunkARetrieved.state = ChunkState.retrieved ↔
      ∃ r ∈ ((transitionTo oracleA stateC RagStep.RETRIEVING stateC).1).retrievedChunks,
        r.id = chunkARetrieved.id) ∧
    (chunkARetrieved.state = ChunkState.processed ↔
      ∀ r ∈ ((transitionTo oracleA stateC RagStep.RETRIEVING stateC).1).retrievedChunks,
        r.id ≠ chunkARetrieved.id) :=
  retrievingMarksChunks oracleA stateC stateC chunkARetrieved (by decide)

end RagApp

namespace RagApp

/-- Helper: a whitespace-free list is unchanged by `dropWhile jsIsWs`. -/
theorem dropWhile_eq_self_of (l : List Char) (h : ∀ c ∈ l, jsIsWs c = false) :
    l.dropWhile jsIsWs = l := by
  cases l with
  | nil => rfl
  | cons a as => simp [List.dropWhile, h a (List.mem_cons_self a as)]

/-- Helper: a whitespace-free list is unchanged by trimming. -/
theorem trimChars_eq_self (l : List Char) (h : ∀ c ∈ l, jsIsWs c = false) :
    trimChars l = l := by
  unfold trimChars
  rw [dropWhile_eq_self_of l h, dropWhile_eq_self_of l.reverse
    (fun c hc => h c (List.mem_reverse.mp hc)), List.reverse_reverse]

/-- Helper: characterization of the chunker loop on whitespace-free content
whose final window passes the length filter — one chunk per window start,
windows at multiples of the stride 200. -/
theorem chunkLoop_windows (content : List Char) (name : String)
    (hws : ∀ c ∈ content, jsIsWs c = false)
    (hlast : content.length % 200 = 0 ∨ 5 < content.length % 200)
    (hcap : ceilDiv content.length 200 ≤ 100) :
    ∀ (n fuel a : Nat) (acc : List Chunk), n ≤ fuel →
      a + n = ceilDiv content.length 200 → acc.length = a →
      chunkLoop content name 250 200 fuel (200 * a) acc =
        acc ++ (List.range n).map (fun k =>
          mkChunk (a + k + 1) name ((content.drop (200 * (a + k))).take 250)) := by
  have h200 : (0:Nat) < 200 := by norm_num
  have e2 := Nat.div_add_mod (content.length + 199) 200
  have m2 : (content.length + 199) % 200 < 200 := Nat.mod_lt _ h200
  have e1 := Nat.div_add_mod content.length 200
  have m1 : content.length % 200 < 200 := Nat.mod_lt _ h200
  intro n
  induction n with
  | zero =>
    intro fuel a acc _ ha hacc
    have hge : ¬ (200 * a < content.length) := by
      simp only [Nat.add_zero] at ha
      unfold ceilDiv at ha
      omega
    cases fuel with
    | zero => simp [chunkLoop]
    | succ f => simp [chunkLoop, hge]
  | succ n ih =>
    intro fuel a acc hfuel ha hacc
    obtain ⟨f, rfl⟩ : ∃ f, fuel = f + 1 := ⟨fuel - 1, by omega⟩
    have hlt : 200 * a < content.length := by
      unfold ceilDiv at ha
      omega
    have hwindow : trimChars ((content.drop (200 * a)).take 250) =
        (content.drop (200 * a)).take 250 := by
      refine trimChars_eq_self _ (fun c hc => hws c ?_)
      exact List.mem_of_mem_drop (List.mem_of_mem_take hc)
    have hwlen : ((content.drop (200 * a)).take 250).length =
        min 250 (content.length - 200 * a) := by
      simp [List.length_take, List.length_drop]
    have hbig : 5 < ((content.drop (200 * a)).take 250).length := by
      rw [hwlen]
      unfold ceilDiv at ha hcap
      omega
    simp only [chunkLoop, hlt, if_true, hwindow, hbig, List.length_append, hacc,
      List.length_singleton]
    by_cases hbreak : 100 ≤ a + 1
    · have hn0 : n = 0 := by
        unfold ceilDiv at ha hcap
        omega
      subst hn0
      rw [if_pos hbreak]
      simp [List.range_succ]
    · rw [if_neg hbreak]
      have hstep : (200 : Nat) * a + 200 = 200 * (a + 1) := by ring
      rw [hstep, ih f (a + 1)
        (acc ++ [mkChunk (a + 1) name ((content.drop (200 * a)).take 250)])
        (by omega) (by omega) (by simp [hacc])]
      rw [List.range_succ_eq_map]
      simp only [List.map_cons, List.map_map, List.append_assoc, List.singleton_append,
        Nat.add_zero]
      refine congrArg (acc ++ ·) ?_
      refine congrArg₂ List.cons rfl ?_
      refine List.map_congr_left ?_
      intro k _
      have h1 : a + 1 + k = a + (k + 1) := by omega
      simp [Function.comp, h1]

/-- C8 (amended).  For whitespace-free content of length L chunked with the
source constants (chunk size 250, overlap 50, hence stride
max(20, 250-50) = 200), provided the final window passes the length-over-5
trim filter and at most maxChunks = 100 windows exist, the chunker emits
exactly ceil(L / 200) chunks — one per window start, not
ceil((L-250)/200) + 1 as the original claim states — and the emitted
windows, which overlap by 50 characters, cover every position of the
content with no gaps. -/
theorem chunkCountCoverage (content : List Char) (name : String)
    (hws : ∀ c ∈ content, jsIsWs c = false)
    (hlast : content.length % 200 = 0 ∨ 5 < content.length % 200)
    (hcap : ceilDiv content.length 200 ≤ 100) :
    generateChunksLocally content name =
      (List.range (ceilDiv content.length 200)).map (fun j =>
        mkChunk (j + 1) name ((content.drop (200 * j)).take 250)) ∧
    (generateChunksLocally content name).length = ceilDiv content.length 200 ∧
    (∀ p < content.length, ∃ j < ceilDiv content.length 200,
      200 * j ≤ p ∧ p < 200 * j + 250) := by
  have e2 := Nat.div_add_mod (content.length + 199) 200
  have m2 : (content.length + 199) % 200 < 200 := Nat.mod_lt _ (by norm_num)
  have hfuel : ceilDiv content.length 200 ≤ content.length + 1 := by
    unfold ceilDiv
    omega
  have h1 := chunkLoop_windows content name hws hlast hcap
    (ceilDiv content.length 200) (content.length + 1) 0 [] hfuel (by omega) rfl
  have hmain : generateChunksLocally content name =
      (List.range (ceilDiv content.length 200)).map (fun j =>
        mkChunk (j + 1) name ((content.drop (200 * j)).take 250)) := by
    unfold generateChunksLocally
    norm_num at h1 ⊢
    exact h1
  refine ⟨hmain, by simp [hmain], ?_⟩
  intro p hp
  refine ⟨p / 200, ?_, ?_, ?_⟩
  · have ep := Nat.div_add_mod p 200
    have mp : p % 200 < 200 := Nat.mod_lt _ (by norm_num)
    unfold ceilDiv
    omega
  · have ep := Nat.div_add_mod p 200
    omega
  · have ep := Nat.div_add_mod p 200
    have mp : p % 200 < 200 := Nat.mod_lt _ (by norm_num)
    omega

set_option maxRecDepth 100000 in
/-- Counterexample to C8 as stated: on whitespace-free content of length
410 the chunker (chunk size 250, overlap 50) emits 3 chunks, while the
claimed formula ceil((L-C)/(C-O)) + 1 gives 2 — the loop keeps a window for
every start below L, not only the starts needed to reach the end. -/
theorem chunkCountFormula_cex :
    (generateChunksLocally contentEx "doc").length = 3 ∧
    specChunkCountFormula contentEx.length 250 50 = 2 ∧
    (generateChunksLocally contentEx "doc").length ≠
      specChunkCountFormula contentEx.length 250 50 := by
  refine ⟨by decide, by decide, by decide⟩

set_option maxRecDepth 100000 in
/-- Witness for C8 (amended) at a concrete input: the hypotheses hold for
the 410-character content and the count equals ceil(410/200) = 3. -/
theorem chunkCountCoverage_witness :
    (generateChunksLocally contentEx "doc").length = ceilDiv contentEx.length 200 :=
  (chunkCountCoverage contentEx "doc" (by decide) (by decide) (by decide)).2.1

/-- Helper: the full auto run of the document loop from IDLE, for any
oracle, snapshot and live state: the six stages are entered in order, the
final step is GENERATING, and the stored retrieval result is the scorer
output over the snapshot query and snapshot chunk list. -/
theorem ragLoop_auto_idle (o : Oracle) (s cur : AppState) :
    (ragLoop o s true 7 RagStep.IDLE cur).trace =
      [RagStep.UPLOADING, RagStep.CHUNKING, RagStep.EMBEDDING, RagStep.STORING,
       RagStep.RETRIEVING, RagStep.GENERATING] ∧
    (ragLoop o s true 7 RagStep.IDLE cur).state.ragStep = RagStep.GENERATING ∧
    (ragLoop o s true 7 RagStep.IDLE cur).state.retrievedChunks =
      performRetrieval o (ragActiveQuery s.query) s.chunks := by
  rcases hask : o.ask (ragActiveQuery s.query) s.retrievedChunks with e | r
  · simp [ragLoop, ragNext, transitionTo, hask]
  · simp [ragLoop, ragNext, transitionTo, hask]

/-- Helper: the same for `handleStep` started on a non-busy IDLE state. -/
theorem handleStep_auto_idle (o : Oracle) (s : AppState)
    (h1 : s.processingRef = false) (h2 : s.ragStep = RagStep.IDLE) :
    (handleStep o true s).trace =
      [RagStep.UPLOADING, RagStep.CHUNKING, RagStep.EMBEDDING, RagStep.STORING,
       RagStep.RETRIEVING, RagStep.GENERATING] ∧
    (handleStep o true s).state.ragStep = RagStep.GENERATING ∧
    (handleStep o true s).state.retrievedChunks =
      performRetrieval o (ragActiveQuery s.query) s.chunks := by
  have hloop := ragLoop_auto_idle o s { s with processingRef := true, isAutoMode := true }
  simp only [handleStep, h1, h2, if_false]
  simp only [show RagStep.IDLE = RagStep.GENERATING ↔ False by simp, if_false]
  exact ⟨hloop.1, hloop.2.1, hloop.2.2⟩

/-- C4 (amended).  In the document pipeline, an auto-mode run started from
IDLE with an empty query does not pause at STORING: it substitutes the
default query "Summarize the key points." at the RETRIEVING stage and runs
uninterrupted through all six stages to GENERATING.  No needs-input pause
exists in this version of the driver. -/
theorem autoEmptyQueryNoPause (o : Oracle) (s : AppState)
    (h1 : s.processingRef = false) (h2 : s.ragStep = RagStep.IDLE) (hq : s.query = []) :
    (handleStep o true s).trace =
      [RagStep.UPLOADING, RagStep.CHUNKING, RagStep.EMBEDDING, RagStep.STORING,
       RagStep.RETRIEVING, RagStep.GENERATING] ∧
    (handleStep o true s).state.ragStep = RagStep.GENERATING ∧
    (handleStep o true s).state.retrievedChunks =
      performRetrieval o "Summarize the key points.".toList s.chunks := by
  have h := handleStep_auto_idle o s h1 h2
  refine ⟨h.1, h.2.1, ?_⟩
  rw [h.2.2]
  have hdq : ragActiveQuery s.query = "Summarize the key points.".toList := by
    simp [ragActiveQuery, hq, trimChars]
  rw [hdq]

set_option maxRecDepth 10000 in
/-- Counterexample to C4 as stated: a concrete auto-mode run from IDLE with
an empty query does not stop at STORING — its trace passes RETRIEVING and
the run ends at GENERATING. -/
theorem autoEmptyQueryPause_cex :
    stateEmptyQ.query = [] ∧
    (handleStep oracleA true stateEmptyQ).trace =
      [RagStep.UPLOADING, RagStep.CHUNKING, RagStep.EMBEDDING, RagStep.STORING,
       RagStep.RETRIEVING, RagStep.GENERATING] ∧
    RagStep.RETRIEVING ∈ (handleStep oracleA true stateEmptyQ).trace ∧
    (handleStep oracleA true stateEmptyQ).state.ragStep = RagStep.GENERATING := by
  refine ⟨rfl, by decide, by decide, by decide⟩

set_option maxRecDepth 10000 in
/-- Witness for C4 (amended) at a concrete input. -/
theorem autoEmptyQueryNoPause_witness :
    (handleStep oracleA true stateEmptyQ).trace =
      [RagStep.UPLOADING, RagStep.CHUNKING, RagStep.EMBEDDING, RagStep.STORING,
       RagStep.RETRIEVING, RagStep.GENERATING] ∧
    (handleStep oracleA true stateEmptyQ).state.ragStep = RagStep.GENERATING ∧
    (handleStep oracleA true stateEmptyQ).state.retrievedChunks =
      performRetrieval oracleA "Summarize the key points.".toList stateEmptyQ.chunks :=
  autoEmptyQueryNoPause oracleA stateEmptyQ (by decide) (by decide) (by decide)

/-- C5.  An auto-mode document run from a non-busy IDLE state with a
non-empty document and non-empty query enters the six stages UPLOADING,
CHUNKING, EMBEDDING, STORING, RETRIEVING, GENERATING in exactly this strict
order (entering UPLOADING and then advancing through exactly five further
internal transitions), with no stage skipped and none revisited, and ends
at GENERATING. -/
theorem docAutoRunOrder (o : Oracle) (s : AppState)
    (h1 : s.processingRef = false) (h2 : s.ragStep = RagStep.IDLE)
    (_hdoc : s.fileContent ≠ []) (_hq : s.query ≠ []) :
    (handleStep o true s).trace =
      [RagStep.UPLOADING, RagStep.CHUNKING, RagStep.EMBEDDING, RagStep.STORING,
       RagStep.RETRIEVING, RagStep.GENERATING] ∧
    (handleStep o true s).state.ragStep = RagStep.GENERATING :=
  ⟨(handleStep_auto_idle o s h1 h2).1, (handleStep_auto_idle o s h1 h2).2.1⟩

set_option maxRecDepth 10000 in
/-- Witness for C5 at a concrete input. -/
theorem docAutoRunOrder_witness :
    (handleStep oracleA true stateIdle).trace =
      [RagStep.UPLOADING, RagStep.CHUNKING, RagStep.EMBEDDING, RagStep.STORING,
       RagStep.RETRIEVING, RagStep.GENERATING] ∧
    (handleStep oracleA true stateIdle).state.ragStep = RagStep.GENERATING :=
  docAutoRunOrder oracleA stateIdle (by decide) (by decide) (by decide) (by decide)

end RagApp

namespace RagApp

/-- C7 (amended).  A fresh agent run triggered from the SYNTHESIZING
terminal state does not keep the accumulated thought trace: the driver
clears it (together with the answer) before restarting, and the run-initial
ANALYZING_TASK transition replaces the trace wholesale with its two fixed
thoughts — so after a manual re-trigger from SYNTHESIZING the trace is
exactly those two thoughts, independent of what had accumulated.  Within a
run, every transition other than ANALYZING_TASK only appends to the
trace; only ANALYZING_TASK (and the full reset) replaces or clears it. -/
theorem thoughtTraceReset :
    (∀ (o : Oracle) (s : AppState), s.processingRef = false →
      s.agentStep = AgentStep.SYNTHESIZING →
      (handleAgentStep o false s).state.thoughts = analyzingThoughts) ∧
    (∀ (o : Oracle) (snap cur : AppState) (t : AgentStep), t ≠ AgentStep.ANALYZING_TASK →
      ∃ tail, ((transitionAgentTo o snap t cur).1).thoughts = cur.thoughts ++ tail) ∧
    (∀ (o : Oracle) (snap cur : AppState),
      ((transitionAgentTo o snap AgentStep.ANALYZING_TASK cur).1).thoughts =
        analyzingThoughts) := by
  refine ⟨?_, ?_, ?_⟩
  · intro o s h1 h2
    simp [handleAgentStep, h1, h2, agentLoop, agentNext, transitionAgentTo]
  · intro o snap cur t ht
    cases t with
    | IDLE => exact ⟨[], by simp [transitionAgentTo]⟩
    | ANALYZING_TASK => exact absurd rfl ht
    | PLANNING =>
      exact ⟨["Plan: Invoke \x27doc_search\x27 tool to verify guidelines.",
        "Defining search parameters..."], by simp [transitionAgentTo]⟩
    | TOOL_EXECUTION =>
      exact ⟨["Executing Tool: doc_search(query=\x27Rule requirements\x27)"],
        by simp [transitionAgentTo]⟩
    | REASONING =>
      exact ⟨["Comparing retrieved context with user constraints...",
        "Context found. Verifying grounding logic."], by simp [transitionAgentTo]⟩
    | SYNTHESIZING =>
      rcases h : o.ask (agentActiveQuery snap.query) snap.retrievedChunks with e | r
      · exact ⟨["Finalizing answer with citations."], by simp [transitionAgentTo, h]⟩
      · exact ⟨["Finalizing answer with citations."], by simp [transitionAgentTo, h]⟩
  · intro o snap cur
    simp [transitionAgentTo]

set_option maxRecDepth 10000 in
/-- Counterexample to C7 as stated: a concrete fresh run triggered from
SYNTHESIZING with trace ["t1"] does not leave the trace intact — the final
trace is the two fixed ANALYZING_TASK thoughts and "t1" is gone. -/
theorem thoughtTraceIntact_cex :
    stateSynth.agentStep = AgentStep.SYNTHESIZING ∧ stateSynth.thoughts = ["t1"] ∧
    (handleAgentStep oracleA false stateSynth).state.thoughts = analyzingThoughts ∧
    "t1" ∉ (handleAgentStep oracleA false stateSynth).state.thoughts := by
  refine ⟨rfl, rfl, by decide, by decide⟩

set_option maxRecDepth 10000 in
/-- Witness for C7 (amended) at concrete inputs: the fresh-run clause at a
SYNTHESIZING state and the append-only clause at the PLANNING stage. -/
theorem thoughtTraceReset_witness :
    (handleAgentStep oracleA false stateSynth).state.thoughts = analyzingThoughts ∧
    (∃ tail, ((transitionAgentTo oracleA stateIdle AgentStep.PLANNING stateIdle).1).thoughts =
      stateIdle.thoughts ++ tail) :=
  ⟨thoughtTraceReset.1 oracleA stateSynth (by decide) (by decide),
   thoughtTraceReset.2.1 oracleA stateIdle stateIdle AgentStep.PLANNING (by decide)⟩

/-- C10.  In the SQL pipeline, a guard-passing auto run from IDLE whose
Gemini calls succeed ends at ANSWERING with a stored result whose rows were
synthesized from its own sql field (the SQL is carried through the
`sqlResultRef` ref cell of the same run); and if no SQL was generated (the
ref cell is empty), the EXECUTING transition synthesizes no rows and leaves
the stored result untouched. -/
theorem sqlRowsFromOwnSql :
    (∀ (o : Oracle) (s : AppState) (p : SqlPair) (rows : List MockRow),
      s.processingRef = false → s.sqlStep = SqlStep.IDLE →
      o.textToSql (sqlActiveQuery s.query) = Except.ok p →
      o.simulate p.sql = Except.ok rows →
      (handleSqlStep o true s).state.sqlStep = SqlStep.ANSWERING ∧
      (handleSqlStep o true s).state.sqlResult =
        some { sql := p.sql, explanation := p.explanation, results := rows } ∧
      ∃ r, (handleSqlStep o true s).state.sqlResult = some r ∧
        o.simulate r.sql = Except.ok r.results) ∧
    (∀ (o : Oracle) (snap cur : AppState), cur.sqlResultRef = none →
      ((transitionSqlTo o snap SqlStep.EXECUTING cur).1).sqlResult = cur.sqlResult ∧
      ((transitionSqlTo o snap SqlStep.EXECUTING cur).1).sqlResultRef = none) := by
  constructor
  · intro o s p rows h1 h2 hgen hsim
    have hrun : (handleSqlStep o true s).state.sqlStep = SqlStep.ANSWERING ∧
        (handleSqlStep o true s).state.sqlResult =
          some { sql := p.sql, explanation := p.explanation, results := rows } := by
      constructor <;>
        simp [handleSqlStep, h1, h2, sqlLoop, sqlNext, transitionSqlTo, hgen, hsim]
    exact ⟨hrun.1, hrun.2, ⟨_, hrun.2, by simpa using hsim⟩⟩
  · intro o snap cur h
    simp [transitionSqlTo, h]

set_option maxRecDepth 10000 in
/-- Witness for C10 at concrete inputs: a successful auto run stores rows
generated from its own SQL, and EXECUTING with an empty ref cell leaves the
stored result unchanged. -/
theorem sqlRowsFromOwnSql_witness :
    ((handleSqlStep oracleA true stateIdle).state.sqlStep = SqlStep.ANSWERING ∧
      (handleSqlStep oracleA true stateIdle).state.sqlResult =
        some { sql := "SELECT 1;", explanation := "E", results := ["r1"] }) ∧
    ((transitionSqlTo oracleA stateIdle SqlStep.EXECUTING stateIdle).1).sqlResult =
      stateIdle.sqlResult := by
  have h1 := sqlRowsFromOwnSql.1 oracleA stateIdle ⟨"SELECT 1;", "E"⟩ ["r1"]
    (by decide) (by decide) rfl rfl
  have h2 := sqlRowsFromOwnSql.2 oracleA stateIdle stateIdle rfl
  exact ⟨⟨h1.1, h1.2.1⟩, h2.1⟩

end RagApp

namespace GeminiService

/-- C9.  The Gemini service SQL operations never raise on unparsable
responses: whenever parsing the (defaulted) response text fails, `textToSql`
returns the placeholder query "SELECT * FROM table;" with the explanation
"Failed to parse SQL response.", and `simulateDatabaseQuery` returns the
empty row list. -/
theorem geminiParseFallbacks
    (parseObj : String → Except String RagApp.SqlPair)
    (parseArr : String → Except String (List RagApp.MockRow))
    (t1 t2 : Option String) (e1 e2 : String)
    (h1 : parseObj (responseTextOr "\x7b\x7d" t1) = Except.error e1)
    (h2 : parseArr (responseTextOr "[]" t2) = Except.error e2) :
    textToSql parseObj t1 =
      ⟨"SELECT * FROM table;", "Failed to parse SQL response."⟩ ∧
    simulateDatabaseQuery parseArr t2 = [] := by
  constructor
  · simp [textToSql, h1]
  · simp [simulateDatabaseQuery, h2]

/-- Witness for C9 at a concrete unparsable response. -/
theorem geminiParseFallbacks_witness :
    textToSql RagApp.badParseObj (some "garbage") =
      ⟨"SELECT * FROM table;", "Failed to parse SQL response."⟩ ∧
    simulateDatabaseQuery RagApp.badParseArr (some "garbage") = [] :=
  geminiParseFallbacks RagApp.badParseObj RagApp.badParseArr (some "garbage") (some "garbage")
    "unparsable" "unparsable" rfl rfl

end GeminiService
